import Mathlib

/-!
# BlockClash verification portal — shallow embedding

A shallow embedding of the TaskLoop/BlockClash verification portal
(user-facing verification wizard, operator dashboard, chat bridge) and
proofs of the behavioural properties claimed for it.

The remote Supabase store is modelled as an explicit `Store` value
(session rows and chat-message rows); each client operation becomes a
pure function from the current store and component state to the new
store, the new component state, and the ordered list of remote/UI
effects it issues.  Backend responses that the code branches on (row
returned or not, fetched data or null) are passed in as parameters.
-/

namespace BlockClash

/-- Sender of a chat message (`sender IN ('user','admin','system')` in the
`chat_messages` schema). -/
inductive Sender where
  | user
  | admin
  | system
deriving DecidableEq, Repr

/-- Message kind (`message_type IN ('text','code_attempt')` in the
`chat_messages` schema). -/
inductive MessageType where
  | text
  | code_attempt
deriving DecidableEq, Repr

/-- Session status (`status IN ('pending','verified','rejected')` in the
`verification_sessions` schema). -/
inductive Status where
  | pending
  | verified
  | rejected
deriving DecidableEq, Repr

/-- A row of the `verification_sessions` table.  Timestamps are abstracted
to `Nat`. -/
structure SessionRow where
  id : String
  mc_name : String
  email : String
  code : String
  status : Status
  created_at : Nat
deriving DecidableEq, Repr

/-- A row of the `chat_messages` table.  `is_correct` is nullable
(`BOOLEAN DEFAULT NULL`), hence `Option Bool`. -/
structure ChatMessageRow where
  id : String
  session_id : String
  sender : Sender
  message : String
  message_type : MessageType
  is_correct : Option Bool
  created_at : Nat
deriving DecidableEq, Repr

/-- The remote store: the two tables the clients read and write. -/
structure Store where
  sessions : List SessionRow
  messages : List ChatMessageRow
deriving DecidableEq, Repr

/-- The client-side message shape.  The dashboard's `LocalMessage`
interface has optional `message_type` / `is_correct` fields; the user
widget's interface simply leaves them absent, which we model as `none`. -/
structure LocalMessage where
  id : String
  sender : Sender
  message : String
  created_at : Nat
  message_type : Option MessageType := none
  is_correct : Option Bool := none
deriving DecidableEq, Repr

/-- The externally visible actions a client operation performs, in
program order: remote writes, broadcasts, optimistic UI updates, and
timed waits.  `showError` stands for any action surfacing a remote
failure to the user; the send paths never produce one. -/
inductive Effect where
  | insertMessage (row : ChatMessageRow)
  | insertSession (email : String)
  | updateStatus (sid : String) (st : Status)
  | updateCode (sid : String) (code : String)
  | deleteMessages (sid : String)
  | deleteSession (sid : String)
  | broadcastNewMessage (m : LocalMessage)
  | broadcastCodeAttempt (code : String) (ok : Bool)
  | broadcastChatEnded
  | localAppend (m : LocalMessage)
  | clearInput
  | wait (ms : Nat)
  | showError (text : String)
deriving DecidableEq, Repr

/-- Whether an effect is a `chat_messages` insert. -/
def Effect.isInsertMessage : Effect → Bool
  | .insertMessage _ => true
  | _ => false

/-- Whether an effect is a `verification_sessions` status update. -/
def Effect.isUpdateStatus : Effect → Bool
  | .updateStatus _ _ => true
  | _ => false

/-- Whether an effect surfaces an error to the user. -/
def Effect.isShowError : Effect → Bool
  | .showError _ => true
  | _ => false

/-- JavaScript's `String.prototype.trim()`: strip leading and trailing
whitespace.  Written over the character list so the kernel can evaluate
it on concrete strings. -/
def jsTrim (s : String) : String :=
  ⟨((s.data.dropWhile Char.isWhitespace).reverse.dropWhile Char.isWhitespace).reverse⟩

/-- `update verification_sessions set status = st where id = sid`. -/
def setSessionStatus (store : Store) (sid : String) (st : Status) : Store :=
  { store with
    sessions := store.sessions.map fun r =>
      if r.id == sid then { r with status := st } else r }

/-- The status of the session row with the given id (first match), if any. -/
def statusOf (store : Store) (sid : String) : Option Status :=
  (store.sessions.find? fun r => r.id == sid).map (·.status)

/-! ## Verification wizard (user-facing page) -/

/-- The top-level wizard stage: `useState<'welcome' | 'form'>`. -/
inductive TopStep where
  | welcome
  | form
deriving DecidableEq, Repr

/-- The `VerificationPage` component state: top-level stage, form step
index, the three form fields, the stored session id, and the boolean
flags driving the view. -/
structure WizardState where
  step : TopStep
  formStep : Nat
  mcName : String
  email : String
  codeField : String
  sessionId : Option String
  isVerifying : Bool
  isProcessing : Bool
  isSuccess : Bool
  codeError : Bool
deriving DecidableEq, Repr

/-- What `VerificationPage` renders: the success screen takes priority,
then the welcome screen, then the processing screen, else the form at
the current step. -/
inductive View where
  | success
  | welcome
  | processing
  | form (step : Nat)
deriving DecidableEq, Repr

/-- The render dispatch of `VerificationPage`. -/
def renderView (w : WizardState) : View :=
  if w.isSuccess then .success
  else if w.step == .welcome then .welcome
  else if w.isProcessing then .processing
  else .form w.formStep

/-- The inline code error (with its "contact support" affordance) is
rendered only inside the step-2 code field branch, when `codeError` is
set. -/
def codeErrorShown (w : WizardState) : Bool :=
  renderView w == .form 2 && w.codeError

/-- The step-2 "Verify Code" button is disabled while the code field is
empty (`disabled={!formData[currentStepData.field]}`), so a user
submission always carries a non-empty input. -/
def verifyEnabled (w : WizardState) : Bool :=
  w.codeField != ""

/-- `sessionData?.code || ''`: look up the session row by id and read its
code, defaulting to the empty string when the id is absent (or the query
was keyed by a null session id, which matches no row). -/
def lookupCode (store : Store) (sid : Option String) : String :=
  match sid with
  | none => ""
  | some s => ((store.sessions.find? fun r => r.id == s).map (·.code)).getD ""

/-- `const isCorrect = correctCode && formData.code === correctCode`.
JavaScript `&&` yields the falsy `''` when the stored code is empty;
we model the truthiness of the result as a `Bool`. -/
def computeIsCorrect (correctCode input : String) : Bool :=
  (correctCode != "") && (input == correctCode)

/-- `handleSubmit` of `VerificationPage`: read the stored code, compute
correctness, insert one `code_attempt` row, broadcast the attempt, then
either update the session status to `verified` and show success, or set
the inline error and clear the code field.  `attemptId`/`now` stand for
the row id and timestamp the backend assigns. -/
def handleSubmit (store : Store) (w : WizardState) (attemptId : String) (now : Nat) :
    Store × WizardState × List Effect :=
  let correctCode := lookupCode store w.sessionId
  let isCorrect := computeIsCorrect correctCode w.codeField
  let attempt : ChatMessageRow :=
    { id := attemptId
      session_id := w.sessionId.getD ""
      sender := .system
      message := w.codeField
      message_type := .code_attempt
      is_correct := some isCorrect
      created_at := now }
  let store1 : Store := { store with messages := store.messages ++ [attempt] }
  if isCorrect then
    (setSessionStatus store1 (w.sessionId.getD "") .verified,
     { w with isVerifying := false, codeError := false, isSuccess := true },
     [.insertMessage attempt, .broadcastCodeAttempt w.codeField isCorrect,
      .updateStatus (w.sessionId.getD "") .verified, .wait 1000])
  else
    (store1,
     { w with isVerifying := false, codeError := true, codeField := "" },
     [.insertMessage attempt, .broadcastCodeAttempt w.codeField isCorrect, .wait 1000])

/-- `createSessionWithEmail`: insert a `pending` session row with the
given email and an empty code.  `newId` is the id the backend assigns,
`none` modelling a failed insert (no row returned); only on success is
the session id stored. -/
def createSessionWithEmail (store : Store) (email : String) (newId : Option String)
    (now : Nat) : Store × Option String :=
  match newId with
  | some i =>
      ({ store with
         sessions := store.sessions ++
           [{ id := i, mc_name := "", email := email, code := "", status := .pending,
              created_at := now }] },
       some i)
  | none => (store, none)

/-- `handleNext` of `VerificationPage`: step 0 advances locally; step 1
creates the remote session and, on success, waits 30 s and advances to
step 2, while on failure it only leaves the processing stage; any later
step delegates to `handleSubmit`. -/
def handleNext (store : Store) (w : WizardState) (newId : Option String)
    (attemptId : String) (now : Nat) : Store × WizardState × List Effect :=
  if w.formStep == 0 then
    (store, { w with formStep := 1 }, [])
  else if w.formStep == 1 then
    match createSessionWithEmail store w.email newId now with
    | (store1, some sid) =>
        (store1,
         { w with sessionId := some sid, isProcessing := false, formStep := 2 },
         [.insertSession w.email, .wait 30000])
    | (_, none) =>
        (store, { w with isProcessing := false }, [.insertSession w.email])
  else
    handleSubmit store w attemptId now

/-! ## Message loads -/

/-- `.order('created_at', { ascending: true })`. -/
def orderByCreatedAsc (l : List ChatMessageRow) : List ChatMessageRow :=
  l.mergeSort fun a b => a.created_at ≤ b.created_at

/-- `.order('created_at', { ascending: false })` on sessions. -/
def orderByCreatedDesc (l : List SessionRow) : List SessionRow :=
  l.mergeSort fun a b => b.created_at ≤ a.created_at

/-- The rows the user widget's `loadMessages` selects: messages of the
session, excluding `code_attempt` rows
(`.neq('message_type', 'code_attempt')`), ordered by `created_at`. -/
def userLoadRows (store : Store) (sessionId : String) : List ChatMessageRow :=
  orderByCreatedAsc <| store.messages.filter fun m =>
    m.session_id == sessionId && m.message_type != .code_attempt

/-- The user widget maps each selected row to its `LocalMessage` shape
(id, sender, message, created_at). -/
def userView (m : ChatMessageRow) : LocalMessage :=
  { id := m.id, sender := m.sender, message := m.message, created_at := m.created_at }

/-- `ChatWindow`'s `loadMessages`: the user-side transcript. -/
def ChatWindow.loadMessages (store : Store) (sessionId : String) : List LocalMessage :=
  (userLoadRows store sessionId).map userView

/-- The rows the dashboard's `loadMessages` selects: all messages of the
session (no `message_type` filter), ordered by `created_at`. -/
def adminLoadRows (store : Store) (sessionId : String) : List ChatMessageRow :=
  orderByCreatedAsc <| store.messages.filter fun m => m.session_id == sessionId

/-- The dashboard maps each row to only `id`, `sender`, `message`,
`created_at` — `message_type` and `is_correct` are dropped. -/
def adminView (m : ChatMessageRow) : LocalMessage :=
  { id := m.id, sender := m.sender, message := m.message, created_at := m.created_at }

/-- The dashboard's `loadMessages`: the operator-side transcript. -/
def AdminDashboard.loadMessages (store : Store) (sessionId : String) : List LocalMessage :=
  (adminLoadRows store sessionId).map adminView

/-- How the dashboard renders one transcript entry. -/
inductive RenderKind where
  | codeAttempt (ok : Bool)
  | ordinary
deriving DecidableEq, Repr

/-- The dashboard's message renderer: the code-attempt styling (centred
card with correctness icon) is used exactly when
`msg.message_type === 'code_attempt'`; otherwise the ordinary bubble. -/
def renderMessage (m : LocalMessage) : RenderKind :=
  if m.message_type == some .code_attempt then .codeAttempt (m.is_correct.getD false)
  else .ordinary

/-! ## User chat widget send -/

/-- The `ChatWindow` component state.  `channelOpen` records whether the
broadcast channel ref is set (it is, once the channel is created on
session open). -/
structure ChatState where
  messages : List LocalMessage
  input : String
  isConnected : Bool
  chatEnded : Bool
  sessionId : Option String
  channelOpen : Bool
deriving DecidableEq, Repr

/-- `ChatWindow`'s `handleSend`: guard on blank text, missing session, or
ended chat; otherwise append the optimistic message and clear the input,
then insert the row and broadcast.  The backend results of the insert
and broadcast (`insertOk`, `broadcastOk`) are ignored by the source
(`await` with no result used), so they are parameters this definition
never reads. -/
def ChatWindow.handleSend (cw : ChatState) (text : String) (newId : String) (now : Nat)
    (insertOk : Bool) (broadcastOk : Bool) : ChatState × List Effect :=
  if jsTrim text == "" || cw.sessionId.isNone || cw.chatEnded then (cw, [])
  else
    let m : LocalMessage :=
      { id := newId, sender := .user, message := jsTrim text, created_at := now }
    ({ cw with messages := cw.messages ++ [m], input := "" },
     [.localAppend m, .clearInput,
      .insertMessage
        { id := newId, session_id := cw.sessionId.getD "", sender := .user,
          message := m.message, message_type := .text, is_correct := none,
          created_at := now }] ++
     (if cw.channelOpen then [.broadcastNewMessage m] else []))

/-! ## Operator dashboard -/

/-- The `AdminDashboard` component state (the part the claims touch). -/
structure AdminState where
  sessions : List SessionRow
  selected : Option SessionRow
  messages : List LocalMessage
  newMessage : String
  channelOpen : Bool
deriving DecidableEq, Repr

/-- The dashboard's `fetchSessions`: replace the local list with the
fetched one (`data?`, `none` modelling a null response) and raise the
transient new-request alert when the previous list was non-empty and the
fetched list is strictly longer
(`sessions.length > 0 && data.length > sessions.length`).  Returns the
new list and whether the alert was raised. -/
def fetchSessions (prev : List SessionRow) (data? : Option (List SessionRow)) :
    List SessionRow × Bool :=
  match data? with
  | none => (prev, false)
  | some data => (data, decide (0 < prev.length) && decide (prev.length < data.length))

/-- The query `fetchSessions` issues: full table read, newest first. -/
def sessionsQuery (store : Store) : List SessionRow :=
  orderByCreatedDesc store.sessions

/-- The dashboard's `sendMessage`: guard on blank input or no selected
session; otherwise append the optimistic admin message and clear the
input, then insert the row and broadcast.  As in `ChatWindow.handleSend`,
the backend results are ignored by the source. -/
def sendMessage (a : AdminState) (newId : String) (now : Nat)
    (insertOk : Bool) (broadcastOk : Bool) : AdminState × List Effect :=
  if jsTrim a.newMessage == "" || a.selected.isNone then (a, [])
  else
    let m : LocalMessage :=
      { id := newId, sender := .admin, message := jsTrim a.newMessage, created_at := now }
    ({ a with messages := a.messages ++ [m], newMessage := "" },
     [.localAppend m, .clearInput,
      .insertMessage
        { id := newId, session_id := (a.selected.map (·.id)).getD "", sender := .admin,
          message := m.message, message_type := .text, is_correct := none,
          created_at := now }] ++
     (if a.channelOpen then [.broadcastNewMessage m] else []))

/-- The dashboard's `endConversation`: with a session selected, broadcast
`chat-ended` (when the channel ref is set), wait 500 ms, delete the
session's messages, delete the session row, then drop the session from
the local list, clear the selection and empty the transcript. -/
def endConversation (store : Store) (a : AdminState) : Store × AdminState × List Effect :=
  match a.selected with
  | none => (store, a, [])
  | some sess =>
      let sid := sess.id
      ({ sessions := store.sessions.filter fun r => !(r.id == sid),
         messages := store.messages.filter fun m => !(m.session_id == sid) },
       { a with
         sessions := a.sessions.filter fun r => !(r.id == sid),
         selected := none,
         messages := [] },
       (if a.channelOpen then [.broadcastChatEnded] else []) ++
       [.wait 500, .deleteMessages sid, .deleteSession sid])

/-- The dashboard's `updateSessionStatus`: update the row's status in the
store and mirror the change in the local list and the selected session. -/
def updateSessionStatus (store : Store) (a : AdminState) (sid : String)
    (st : Status) : Store × AdminState × List Effect :=
  (setSessionStatus store sid st,
   { a with
     sessions := a.sessions.map fun s => if s.id == sid then { s with status := st } else s,
     selected := a.selected.map fun s => if s.id == sid then { s with status := st } else s },
   [.updateStatus sid st])

/-- The dashboard's `saveVerificationCode`: with a session selected and a
non-blank code input, write the trimmed code to the session row and
mirror it locally.  (The code-entry input is only rendered while the
selected session's code is empty.) -/
def saveVerificationCode (store : Store) (a : AdminState) (codeInput : String) :
    Store × AdminState × List Effect :=
  match a.selected with
  | none => (store, a, [])
  | some sess =>
      if jsTrim codeInput == "" then (store, a, [])
      else
        let c := jsTrim codeInput
        ({ store with
           sessions := store.sessions.map fun r =>
             if r.id == sess.id then { r with code := c } else r },
         { a with
           sessions := a.sessions.map fun s =>
             if s.id == sess.id then { s with code := c } else s,
           selected := some (if sess.id == sess.id then { sess with code := c } else sess) },
         [.updateCode sess.id c])

/-! ## Per-session transition system

The status-transition claims quantify over sequences of exposed
operations on one session.  `SessionView` is that session's
operation-relevant state (its stored code and status); `Op` is an
exposed operation and `applyOp` its effect on the session, each guard
taken from the UI exposure in the source:

* `setCode` — the dashboard's code entry, rendered only while the
  session's code is empty, submitting only a non-blank trimmed code;
* `dashboardStatus` — the Verify/Reject buttons, rendered only while the
  selected session is `pending`, issuing only `verified`/`rejected`;
* `wizardSubmit` — the wizard's step-2 submit, which updates the status
  to `verified` exactly when the submitted code is correct, with no
  guard on the current status. -/

/-- The operation-relevant state of a single session. -/
structure SessionView where
  code : String
  status : Status
deriving DecidableEq, Repr

/-- One exposed operation on a session. -/
inductive Op where
  | setCode (c : String)
  | dashboardStatus (st : Status)
  | wizardSubmit (input : String)
deriving DecidableEq, Repr

/-- The effect of one exposed operation on the session. -/
def applyOp (s : SessionView) (op : Op) : SessionView :=
  match op with
  | .setCode c =>
      if s.code == "" && jsTrim c != "" then { s with code := jsTrim c } else s
  | .dashboardStatus st =>
      if s.status == .pending && (st == .verified || st == .rejected) then
        { s with status := st }
      else s
  | .wizardSubmit input =>
      if computeIsCorrect s.code input then { s with status := .verified } else s

/-- A sequence of exposed operations, applied in order. -/
def runOps (s : SessionView) (ops : List Op) : SessionView :=
  ops.foldl applyOp s

/-! ## Helper lemmas -/

/-- When the user's input is non-empty, the computed correctness is plain
case-sensitive equality with the stored code: an empty stored code makes
both sides false, a non-empty one makes the truthiness guard vacuous. -/
theorem computeIsCorrect_of_ne_empty (c input : String) (h : input ≠ "") :
    computeIsCorrect c input = (input == c) := by
  unfold computeIsCorrect
  by_cases hc : c = ""
  · subst hc
    have hin : (input == "") = false := beq_eq_false_iff_ne.mpr h
    simp [hin]
  · have hcb : (c != "") = true := bne_iff_ne.mpr hc
    simp [hcb]

/-- A stored empty code makes every submission incorrect. -/
theorem computeIsCorrect_empty (input : String) : computeIsCorrect "" input = false := by
  simp [computeIsCorrect]

/-- `find?` over the status-update map: when a row with the id exists,
the first match after the update carries the new status. -/
theorem find?_status_update (l : List SessionRow) (sid : String) (st : Status)
    (h : (l.find? fun r => r.id == sid).isSome) :
    ((l.map fun r => if r.id == sid then { r with status := st } else r).find?
      fun r => r.id == sid).map (·.status) = some st := by
  induction l with
  | nil => simp at h
  | cons a l ih =>
      by_cases hb : (a.id == sid) = true
      · have hupd : (if a.id == sid then { a with status := st } else a) =
            { a with status := st } := if_pos hb
        rw [List.map_cons, hupd]
        simp [List.find?_cons, hb]
      · have hbf : (a.id == sid) = false := by
          exact Bool.not_eq_true _ ▸ hb
        have hupd : (if a.id == sid then { a with status := st } else a) = a := if_neg hb
        rw [List.map_cons, hupd]
        simp only [List.find?_cons, hbf] at h ⊢
        exact ih h

/-- If a session with the given id exists, updating its status makes
`statusOf` report the new status. -/
theorem statusOf_setSessionStatus (store : Store) (sid : String) (st st0 : Status)
    (h : statusOf store sid = some st0) :
    statusOf (setSessionStatus store sid st) sid = some st := by
  have hs : (store.sessions.find? fun r => r.id == sid).isSome := by
    unfold statusOf at h
    cases hf : store.sessions.find? fun r => r.id == sid with
    | none => rw [hf] at h; simp at h
    | some _ => simp
  exact find?_status_update store.sessions sid st hs

/-! ## Example inputs used by the witnesses -/

/-- A pending session whose operator-set code is `"482913"`. -/
def exSession : SessionRow :=
  { id := "s1", mc_name := "Notch", email := "steve@minecraft.net", code := "482913",
    status := .pending, created_at := 0 }

/-- A store holding only `exSession` and no messages. -/
def exStore : Store := { sessions := [exSession], messages := [] }

/-- The wizard at step 2 of `exSession`, about to submit `"482913"`. -/
def exWizard : WizardState :=
  { step := .form, formStep := 2, mcName := "Notch", email := "steve@minecraft.net",
    codeField := "482913", sessionId := some "s1", isVerifying := false,
    isProcessing := false, isSuccess := false, codeError := false }

/-! ## Claims -/

/-- C1: every step-2 user submission (the Verify button is enabled, so
the input is non-empty) records exactly one `code_attempt` message —
exactly one row is appended and exactly one insert effect is issued —
whose correctness flag is the case-sensitive equality of the submitted
code with the code stored on the session. -/
theorem submit_records_one_attempt (store : Store) (w : WizardState)
    (attemptId : String) (now : Nat) (sid : String)
    (hsid : w.sessionId = some sid) (hen : verifyEnabled w = true) :
    ∃ m : ChatMessageRow,
      (handleSubmit store w attemptId now).1.messages = store.messages ++ [m] ∧
      m.message_type = .code_attempt ∧
      m.session_id = sid ∧
      m.message = w.codeField ∧
      m.is_correct = some (w.codeField == lookupCode store w.sessionId) ∧
      ((handleSubmit store w attemptId now).2.2.countP Effect.isInsertMessage) = 1 := by
  have hne : w.codeField ≠ "" := by
    unfold verifyEnabled at hen
    exact bne_iff_ne.mp hen
  have hcc2 : computeIsCorrect (lookupCode store (some sid)) w.codeField =
      (w.codeField == lookupCode store (some sid)) := by
    rw [← hsid]
    exact computeIsCorrect_of_ne_empty _ _ hne
  refine ⟨{ id := attemptId, session_id := sid, sender := .system,
            message := w.codeField, message_type := .code_attempt,
            is_correct := some (w.codeField == lookupCode store w.sessionId),
            created_at := now }, ?_⟩
  by_cases hb : (w.codeField == lookupCode store (some sid)) = true
  · have hc : computeIsCorrect (lookupCode store (some sid)) w.codeField = true := by
      rw [hcc2]; exact hb
    simp [handleSubmit, hsid, hc, hb, setSessionStatus,
      List.countP_cons, List.countP_nil, Effect.isInsertMessage]
  · have hbf : (w.codeField == lookupCode store (some sid)) = false :=
      Bool.not_eq_true _ ▸ hb
    have hc : computeIsCorrect (lookupCode store (some sid)) w.codeField = false := by
      rw [hcc2]; exact hbf
    simp [handleSubmit, hsid, hc, hbf, setSessionStatus,
      List.countP_cons, List.countP_nil, Effect.isInsertMessage]

/-- Witness for C1: the hypotheses hold and the conclusion evaluates at
the example store and wizard. -/
theorem submit_records_one_attempt_witness :
    exWizard.sessionId = some "s1" ∧ verifyEnabled exWizard = true ∧
    ∃ m : ChatMessageRow,
      (handleSubmit exStore exWizard "m1" 5).1.messages = exStore.messages ++ [m] ∧
      m.message_type = .code_attempt ∧
      m.session_id = "s1" ∧
      m.message = exWizard.codeField ∧
      m.is_correct = some (exWizard.codeField == lookupCode exStore exWizard.sessionId) ∧
      ((handleSubmit exStore exWizard "m1" 5).2.2.countP Effect.isInsertMessage) = 1 :=
  ⟨rfl, rfl, submit_records_one_attempt exStore exWizard "m1" 5 "s1" rfl rfl⟩

/-- C2: on a step-2 user submission for a pending session, a matching
code flips the session status to `verified` and shows the success view;
a mismatching code leaves the store's sessions untouched (no status
update effect is issued, so the status stays `pending`), clears the code
input, and shows the step-2 form with the inline error and its
support-chat prompt. -/
theorem submit_match_verifies_mismatch_errors (store : Store) (w : WizardState)
    (attemptId : String) (now : Nat) (sid : String)
    (hsid : w.sessionId = some sid) (hen : verifyEnabled w = true)
    (hpend : statusOf store sid = some .pending)
    (hstep : w.step = .form) (hform : w.formStep = 2)
    (hproc : w.isProcessing = false) (hsucc : w.isSuccess = false) :
    (w.codeField = lookupCode store w.sessionId →
      statusOf (handleSubmit store w attemptId now).1 sid = some .verified ∧
      renderView (handleSubmit store w attemptId now).2.1 = .success) ∧
    (w.codeField ≠ lookupCode store w.sessionId →
      (handleSubmit store w attemptId now).1.sessions = store.sessions ∧
      statusOf (handleSubmit store w attemptId now).1 sid = some .pending ∧
      (∀ e ∈ (handleSubmit store w attemptId now).2.2, e.isUpdateStatus = false) ∧
      (handleSubmit store w attemptId now).2.1.codeField = "" ∧
      renderView (handleSubmit store w attemptId now).2.1 = .form 2 ∧
      codeErrorShown (handleSubmit store w attemptId now).2.1 = true) := by
  have hne : w.codeField ≠ "" := by
    unfold verifyEnabled at hen
    exact bne_iff_ne.mp hen
  have hcc2 : computeIsCorrect (lookupCode store (some sid)) w.codeField =
      (w.codeField == lookupCode store (some sid)) := by
    rw [← hsid]
    exact computeIsCorrect_of_ne_empty _ _ hne
  constructor
  · intro hmatch
    rw [hsid] at hmatch
    have hb : (w.codeField == lookupCode store (some sid)) = true := beq_iff_eq.mpr hmatch
    have hc : computeIsCorrect (lookupCode store (some sid)) w.codeField = true := by
      rw [hcc2]; exact hb
    constructor
    · have hs : (store.sessions.find? fun r => r.id == sid).isSome := by
        unfold statusOf at hpend
        cases hf : store.sessions.find? fun r => r.id == sid with
        | none => rw [hf] at hpend; simp at hpend
        | some _ => simp
      have hupd := find?_status_update store.sessions sid .verified hs
      simpa [handleSubmit, hsid, hc, setSessionStatus, statusOf] using hupd
    · simp [handleSubmit, hsid, hc, renderView]
  · intro hmiss
    rw [hsid] at hmiss
    have hbf : (w.codeField == lookupCode store (some sid)) = false :=
      beq_eq_false_iff_ne.mpr hmiss
    have hc : computeIsCorrect (lookupCode store (some sid)) w.codeField = false := by
      rw [hcc2]; exact hbf
    refine ⟨by simp [handleSubmit, hsid, hc], ?_, ?_, ?_, ?_, ?_⟩
    · simpa [handleSubmit, hsid, hc, statusOf] using hpend
    · intro e he
      simp [handleSubmit, hsid, hc] at he
      rcases he with h1 | h1 | h1 <;> subst h1 <;> rfl
    · simp [handleSubmit, hsid, hc]
    · simp [handleSubmit, hsid, hc, renderView, hstep, hform, hproc, hsucc]
    · simp [handleSubmit, hsid, hc, codeErrorShown, renderView, hstep, hform, hproc, hsucc]

/-- The wizard of `exWizard` about to submit the wrong code `"000000"`. -/
def exWizardWrong : WizardState := { exWizard with codeField := "000000" }

/-- Witness for C2: at the example session with stored code `"482913"`,
submitting `"000000"` (a mismatch) leaves the sessions untouched, clears
the input and shows the inline error. -/
theorem submit_match_verifies_mismatch_errors_witness :
    exWizardWrong.sessionId = some "s1" ∧ verifyEnabled exWizardWrong = true ∧
    statusOf exStore "s1" = some .pending ∧
    exWizardWrong.codeField ≠ lookupCode exStore exWizardWrong.sessionId ∧
    ((handleSubmit exStore exWizardWrong "m1" 5).1.sessions = exStore.sessions ∧
      statusOf (handleSubmit exStore exWizardWrong "m1" 5).1 "s1" = some .pending ∧
      (∀ e ∈ (handleSubmit exStore exWizardWrong "m1" 5).2.2, e.isUpdateStatus = false) ∧
      (handleSubmit exStore exWizardWrong "m1" 5).2.1.codeField = "" ∧
      renderView (handleSubmit exStore exWizardWrong "m1" 5).2.1 = .form 2 ∧
      codeErrorShown (handleSubmit exStore exWizardWrong "m1" 5).2.1 = true) :=
  ⟨rfl, rfl, rfl, by decide,
   (submit_match_verifies_mismatch_errors exStore exWizardWrong "m1" 5 "s1"
      rfl rfl rfl rfl rfl rfl rfl).2 (by decide)⟩

/-- C6: submitting the email step when the remote session creation
returns no row leaves the wizard with no partial state: the store is
unchanged, no session id is stored, the processing stage is exited, the
form step is not advanced, and the email step is rendered again. -/
theorem email_failure_no_partial_state (store : Store) (w : WizardState)
    (attemptId : String) (now : Nat)
    (hform : w.formStep = 1) (hsid : w.sessionId = none)
    (hstep : w.step = .form) (hsucc : w.isSuccess = false) :
    (handleNext store w none attemptId now).1 = store ∧
    (handleNext store w none attemptId now).2.1.sessionId = none ∧
    (handleNext store w none attemptId now).2.1.isProcessing = false ∧
    (handleNext store w none attemptId now).2.1.formStep = 1 ∧
    renderView (handleNext store w none attemptId now).2.1 = .form 1 := by
  refine ⟨?_, ?_, ?_, ?_, ?_⟩ <;>
    simp [handleNext, createSessionWithEmail, hform, hsid, renderView, hstep, hsucc]

/-- The wizard at the email step with no session yet. -/
def exWizardEmail : WizardState :=
  { step := .form, formStep := 1, mcName := "Notch", email := "steve@minecraft.net",
    codeField := "", sessionId := none, isVerifying := false,
    isProcessing := true, isSuccess := false, codeError := false }

/-- Witness for C6 at the example email-step state. -/
theorem email_failure_no_partial_state_witness :
    exWizardEmail.formStep = 1 ∧ exWizardEmail.sessionId = none ∧
    ((handleNext exStore exWizardEmail none "m1" 5).1 = exStore ∧
      (handleNext exStore exWizardEmail none "m1" 5).2.1.sessionId = none ∧
      (handleNext exStore exWizardEmail none "m1" 5).2.1.isProcessing = false ∧
      (handleNext exStore exWizardEmail none "m1" 5).2.1.formStep = 1 ∧
      renderView (handleNext exStore exWizardEmail none "m1" 5).2.1 = .form 1) :=
  ⟨rfl, rfl, email_failure_no_partial_state exStore exWizardEmail "m1" 5 rfl rfl rfl rfl⟩

/-- C10: when the stored code on the session is the empty string, every
submission — including an empty one — is computed incorrect: the
recorded `code_attempt` carries `is_correct = false`, the sessions table
is untouched and no status update effect is issued, and the success view
is not shown (the inline error is). -/
theorem empty_stored_code_never_verifies (store : Store) (w : WizardState)
    (attemptId : String) (now : Nat) (sid : String)
    (hsid : w.sessionId = some sid)
    (hcode : lookupCode store w.sessionId = "")
    (hsucc : w.isSuccess = false) :
    (∃ m : ChatMessageRow,
      (handleSubmit store w attemptId now).1.messages = store.messages ++ [m] ∧
      m.message_type = .code_attempt ∧
      m.is_correct = some false) ∧
    (handleSubmit store w attemptId now).1.sessions = store.sessions ∧
    (∀ e ∈ (handleSubmit store w attemptId now).2.2, e.isUpdateStatus = false) ∧
    (handleSubmit store w attemptId now).2.1.isSuccess = false ∧
    renderView (handleSubmit store w attemptId now).2.1 ≠ .success ∧
    (handleSubmit store w attemptId now).2.1.codeError = true := by
  rw [hsid] at hcode
  have hc : computeIsCorrect (lookupCode store (some sid)) w.codeField = false := by
    rw [hcode]
    exact computeIsCorrect_empty w.codeField
  refine ⟨⟨{ id := attemptId, session_id := sid, sender := .system,
             message := w.codeField, message_type := .code_attempt,
             is_correct := some false, created_at := now }, ?_, rfl, rfl⟩,
          ?_, ?_, ?_, ?_, ?_⟩
  · simp [handleSubmit, hsid, hc]
  · simp [handleSubmit, hsid, hc]
  · intro e he
    simp [handleSubmit, hsid, hc] at he
    rcases he with h1 | h1 | h1 <;> subst h1 <;> rfl
  · simp [handleSubmit, hsid, hc, hsucc]
  · simp only [handleSubmit, hsid, hc]
    simp [renderView, hsucc]
    split
    · simp
    · split
      · simp
      · simp
  · simp [handleSubmit, hsid, hc]

/-- A store whose only session has no operator-issued code yet. -/
def exStoreNoCode : Store :=
  { sessions := [{ exSession with code := "" }], messages := [] }

/-- The wizard at step 2 of the no-code session, submitting the empty
string. -/
def exWizardEmptySubmit : WizardState := { exWizard with codeField := "" }

/-- Witness for C10: even an empty submission against the empty stored
code is recorded incorrect and does not verify. -/
theorem empty_stored_code_never_verifies_witness :
    exWizardEmptySubmit.sessionId = some "s1" ∧
    lookupCode exStoreNoCode exWizardEmptySubmit.sessionId = "" ∧
    ((∃ m : ChatMessageRow,
        (handleSubmit exStoreNoCode exWizardEmptySubmit "m1" 5).1.messages =
          exStoreNoCode.messages ++ [m] ∧
        m.message_type = .code_attempt ∧
        m.is_correct = some false) ∧
      (handleSubmit exStoreNoCode exWizardEmptySubmit "m1" 5).1.sessions =
        exStoreNoCode.sessions ∧
      (∀ e ∈ (handleSubmit exStoreNoCode exWizardEmptySubmit "m1" 5).2.2,
        e.isUpdateStatus = false) ∧
      (handleSubmit exStoreNoCode exWizardEmptySubmit "m1" 5).2.1.isSuccess = false ∧
      renderView (handleSubmit exStoreNoCode exWizardEmptySubmit "m1" 5).2.1 ≠ .success ∧
      (handleSubmit exStoreNoCode exWizardEmptySubmit "m1" 5).2.1.codeError = true) :=
  ⟨rfl, rfl,
   empty_stored_code_never_verifies exStoreNoCode exWizardEmptySubmit "m1" 5 "s1"
     rfl rfl rfl⟩

/-- A persisted `code_attempt` row for the example session. -/
def exAttemptRow : ChatMessageRow :=
  { id := "m0", session_id := "s1", sender := .system, message := "999999",
    message_type := .code_attempt, is_correct := some true, created_at := 3 }

/-- A persisted ordinary chat row for the example session. -/
def exTextRow : ChatMessageRow :=
  { id := "m2", session_id := "s1", sender := .user, message := "hello",
    message_type := .text, is_correct := none, created_at := 1 }

/-- The example store with one text row and one code-attempt row. -/
def exStoreMsgs : Store := { sessions := [exSession], messages := [exTextRow, exAttemptRow] }

/-- C4: the user-side message load never selects a `code_attempt` row,
while every `code_attempt` row stored for the session is selected by the
operator-side load and its mapped message appears in the operator
transcript. -/
theorem code_attempts_user_hidden_admin_shown (store : Store) (sid : String) :
    (∀ r ∈ userLoadRows store sid, r.message_type ≠ .code_attempt) ∧
    (∀ r ∈ store.messages, r.session_id = sid → r.message_type = .code_attempt →
      r ∈ adminLoadRows store sid ∧
      adminView r ∈ AdminDashboard.loadMessages store sid) := by
  constructor
  · intro r hr
    unfold userLoadRows orderByCreatedAsc at hr
    rw [List.mem_mergeSort] at hr
    have hp := (List.mem_filter.mp hr).2
    intro hctr
    simp [hctr] at hp
  · intro r hr hrsid htype
    have hmem : r ∈ adminLoadRows store sid := by
      unfold adminLoadRows orderByCreatedAsc
      rw [List.mem_mergeSort]
      exact List.mem_filter.mpr ⟨hr, by simp [hrsid]⟩
    exact ⟨hmem, List.mem_map.mpr ⟨r, hmem, rfl⟩⟩

/-- Witness for C4: the stored code-attempt row is absent from the user
load and its mapped message is present in the operator load. -/
theorem code_attempts_user_hidden_admin_shown_witness :
    exAttemptRow ∈ exStoreMsgs.messages ∧
    exAttemptRow.session_id = "s1" ∧
    exAttemptRow.message_type = .code_attempt ∧
    adminView exAttemptRow ∈ AdminDashboard.loadMessages exStoreMsgs "s1" ∧
    exAttemptRow ∉ userLoadRows exStoreMsgs "s1" :=
  ⟨by decide, rfl, rfl,
   ((code_attempts_user_hidden_admin_shown exStoreMsgs "s1").2 exAttemptRow
      (by decide) rfl rfl).2,
   fun h => (code_attempts_user_hidden_admin_shown exStoreMsgs "s1").1 exAttemptRow h rfl⟩

/-- C9: the operator-side load maps each row to only id, sender, message
and created_at — `message_type` and `is_correct` come out `none` — so
every reloaded message, persisted `code_attempt` rows included, is
rendered as an ordinary chat bubble without the code-attempt styling. -/
theorem admin_reload_renders_attempts_ordinary (r : ChatMessageRow) (store : Store)
    (sid : String) :
    (adminView r).id = r.id ∧ (adminView r).sender = r.sender ∧
    (adminView r).message = r.message ∧ (adminView r).created_at = r.created_at ∧
    (adminView r).message_type = none ∧ (adminView r).is_correct = none ∧
    renderMessage (adminView r) = .ordinary ∧
    (∀ m ∈ AdminDashboard.loadMessages store sid, renderMessage m = .ordinary) := by
  refine ⟨rfl, rfl, rfl, rfl, rfl, rfl, rfl, ?_⟩
  intro m hm
  unfold AdminDashboard.loadMessages at hm
  rcases List.mem_map.mp hm with ⟨r', _, rfl⟩
  rfl

/-- Witness for C9: the persisted code-attempt row, reloaded, renders as
an ordinary message. -/
theorem admin_reload_renders_attempts_ordinary_witness :
    exAttemptRow.message_type = .code_attempt ∧
    exAttemptRow.is_correct = some true ∧
    renderMessage (adminView exAttemptRow) = .ordinary ∧
    (adminView exAttemptRow).message_type = none ∧
    (adminView exAttemptRow).is_correct = none :=
  ⟨rfl, rfl,
   (admin_reload_renders_attempts_ordinary exAttemptRow exStoreMsgs "s1").2.2.2.2.2.2.1,
   (admin_reload_renders_attempts_ordinary exAttemptRow exStoreMsgs "s1").2.2.2.2.1,
   (admin_reload_renders_attempts_ordinary exAttemptRow exStoreMsgs "s1").2.2.2.2.2.1⟩

/-- Filtering for a session id after all its rows were removed yields
nothing. -/
theorem filter_removed_session (sid : String) (l : List ChatMessageRow)
    (p : ChatMessageRow → Bool)
    (hp : ∀ m, p m = true → (m.session_id == sid) = true) :
    (l.filter fun m => !(m.session_id == sid)).filter p = [] := by
  rw [List.filter_eq_nil_iff]
  intro m hm
  have hne := (List.mem_filter.mp hm).2
  intro hctr
  rw [hp m hctr] at hne
  simp at hne

/-- The example dashboard state: the example session selected, live
channel open. -/
def exAdmin : AdminState :=
  { sessions := [exSession], selected := some exSession,
    messages := [adminView exTextRow], newMessage := "", channelOpen := true }

/-- C5: ending the conversation for the selected session issues, in
order, the chat-ended broadcast, the fixed 500 ms grace wait, the delete
of the session's messages, and the delete of the session row; the local
list no longer holds the session, the selection is cleared, and loading
history for that session id afterwards yields no messages. -/
theorem end_conversation_terminates_session (store : Store) (a : AdminState)
    (sess : SessionRow) (hsel : a.selected = some sess) (hch : a.channelOpen = true) :
    (endConversation store a).2.2 =
      [.broadcastChatEnded, .wait 500, .deleteMessages sess.id, .deleteSession sess.id] ∧
    AdminDashboard.loadMessages (endConversation store a).1 sess.id = [] ∧
    ChatWindow.loadMessages (endConversation store a).1 sess.id = [] ∧
    statusOf (endConversation store a).1 sess.id = none ∧
    (endConversation store a).2.1.selected = none ∧
    (∀ r ∈ (endConversation store a).2.1.sessions, r.id ≠ sess.id) ∧
    (endConversation store a).2.1.messages = [] := by
  refine ⟨?_, ?_, ?_, ?_, ?_, ?_, ?_⟩
  · simp [endConversation, hsel, hch]
  · simp only [endConversation, hsel]
    unfold AdminDashboard.loadMessages adminLoadRows orderByCreatedAsc
    rw [filter_removed_session sess.id store.messages _ (fun m hm => hm)]
    simp
  · simp only [endConversation, hsel]
    unfold ChatWindow.loadMessages userLoadRows orderByCreatedAsc
    rw [filter_removed_session sess.id store.messages _ ?_]
    · simp
    · intro m hm
      exact (Bool.and_eq_true _ _ ▸ hm).1
  · simp only [endConversation, hsel]
    unfold statusOf
    rw [Option.map_eq_none', List.find?_eq_none]
    intro r hr
    have hne := (List.mem_filter.mp hr).2
    intro hctr
    rw [hctr] at hne
    simp at hne
  · simp [endConversation, hsel]
  · intro r hr
    simp only [endConversation, hsel] at hr
    have hne := (List.mem_filter.mp hr).2
    intro hctr
    rw [show (r.id == sess.id) = true from beq_iff_eq.mpr hctr] at hne
    simp at hne
  · simp [endConversation, hsel]

/-- Witness for C5 at the example dashboard state. -/
theorem end_conversation_terminates_session_witness :
    exAdmin.selected = some exSession ∧ exAdmin.channelOpen = true ∧
    ((endConversation exStoreMsgs exAdmin).2.2 =
      [.broadcastChatEnded, .wait 500, .deleteMessages exSession.id,
       .deleteSession exSession.id] ∧
     AdminDashboard.loadMessages (endConversation exStoreMsgs exAdmin).1 exSession.id = [] ∧
     ChatWindow.loadMessages (endConversation exStoreMsgs exAdmin).1 exSession.id = [] ∧
     statusOf (endConversation exStoreMsgs exAdmin).1 exSession.id = none ∧
     (endConversation exStoreMsgs exAdmin).2.1.selected = none ∧
     (∀ r ∈ (endConversation exStoreMsgs exAdmin).2.1.sessions, r.id ≠ exSession.id) ∧
     (endConversation exStoreMsgs exAdmin).2.1.messages = []) :=
  ⟨rfl, rfl, end_conversation_terminates_session exStoreMsgs exAdmin exSession rfl rfl⟩

/-- A second pending session, newer than `exSession`. -/
def exSession2 : SessionRow :=
  { id := "s2", mc_name := "Steve", email := "alex@minecraft.net", code := "",
    status := .pending, created_at := 7 }

/-- C7 counterexample: when the previously held list is empty, a strictly
longer fetched list (one new row) does not raise the new-request alert,
so the alert is not raised exactly on count growth. -/
theorem new_request_alert_counterexample :
    ([] : List SessionRow).length < [exSession].length ∧
    (fetchSessions [] (some [exSession])).2 = false :=
  ⟨by decide, rfl⟩

/-- C7 amended: the transient new-request alert is raised exactly when
the previously held list is non-empty and the fetched list is strictly
longer; in particular a single new row raises it on the next refresh
only when at least one session was already listed. -/
theorem new_request_alert_iff (prev data : List SessionRow) :
    (fetchSessions prev (some data)).2 = true ↔
      0 < prev.length ∧ prev.length < data.length := by
  simp [fetchSessions]

/-- Witness for C7's amended statement: with one session already held,
fetching two raises the alert. -/
theorem new_request_alert_iff_witness :
    (fetchSessions [exSession] (some [exSession2, exSession])).2 = true :=
  (new_request_alert_iff [exSession] [exSession2, exSession]).mpr ⟨by decide, by decide⟩

/-- C8: on both clients, a send with non-blank input and an active
session appends the optimistic message and clears the input first (the
two local effects precede the remote insert and broadcast), the result
is independent of the backend outcomes (the source never reads them),
exactly one insert is issued (no retry), and no error is surfaced. -/
theorem send_optimistic_no_retry (cw : ChatState) (a : AdminState)
    (textv newId newId2 : String) (now now2 : Nat) (ok1 ok2 ok3 ok4 : Bool)
    (hu1 : jsTrim textv ≠ "") (hu2 : cw.sessionId.isNone = false)
    (hu3 : cw.chatEnded = false) (hu4 : cw.channelOpen = true)
    (ha1 : jsTrim a.newMessage ≠ "") (ha2 : a.selected.isNone = false)
    (ha3 : a.channelOpen = true) :
    ((∀ b1 b2 b3 b4 : Bool,
        ChatWindow.handleSend cw textv newId now b1 b2 =
          ChatWindow.handleSend cw textv newId now b3 b4) ∧
      (ChatWindow.handleSend cw textv newId now ok1 ok2).1.messages =
        cw.messages ++
          [{ id := newId, sender := .user, message := jsTrim textv, created_at := now }] ∧
      (ChatWindow.handleSend cw textv newId now ok1 ok2).1.input = "" ∧
      (ChatWindow.handleSend cw textv newId now ok1 ok2).2 =
        [.localAppend
           { id := newId, sender := .user, message := jsTrim textv, created_at := now },
         .clearInput,
         .insertMessage
           { id := newId, session_id := cw.sessionId.getD "", sender := .user,
             message := jsTrim textv, message_type := .text, is_correct := none,
             created_at := now },
         .broadcastNewMessage
           { id := newId, sender := .user, message := jsTrim textv, created_at := now }] ∧
      ((ChatWindow.handleSend cw textv newId now ok1 ok2).2.countP
          Effect.isInsertMessage) = 1 ∧
      (∀ e ∈ (ChatWindow.handleSend cw textv newId now ok1 ok2).2,
        e.isShowError = false)) ∧
    ((∀ b1 b2 b3 b4 : Bool,
        sendMessage a newId2 now2 b1 b2 = sendMessage a newId2 now2 b3 b4) ∧
      (sendMessage a newId2 now2 ok3 ok4).1.messages =
        a.messages ++
          [{ id := newId2, sender := .admin, message := jsTrim a.newMessage,
             created_at := now2 }] ∧
      (sendMessage a newId2 now2 ok3 ok4).1.newMessage = "" ∧
      (sendMessage a newId2 now2 ok3 ok4).2 =
        [.localAppend
           { id := newId2, sender := .admin, message := jsTrim a.newMessage,
             created_at := now2 },
         .clearInput,
         .insertMessage
           { id := newId2, session_id := (a.selected.map (·.id)).getD "",
             sender := .admin, message := jsTrim a.newMessage, message_type := .text,
             is_correct := none, created_at := now2 },
         .broadcastNewMessage
           { id := newId2, sender := .admin, message := jsTrim a.newMessage,
             created_at := now2 }] ∧
      ((sendMessage a newId2 now2 ok3 ok4).2.countP Effect.isInsertMessage) = 1 ∧
      (∀ e ∈ (sendMessage a newId2 now2 ok3 ok4).2, e.isShowError = false)) := by
  have hub : (jsTrim textv == "") = false := beq_eq_false_iff_ne.mpr hu1
  have hab : (jsTrim a.newMessage == "") = false := beq_eq_false_iff_ne.mpr ha1
  constructor
  · refine ⟨fun b1 b2 b3 b4 => rfl, ?_, ?_, ?_, ?_, ?_⟩
    · simp [ChatWindow.handleSend, hub, hu2, hu3]
    · simp [ChatWindow.handleSend, hub, hu2, hu3]
    · simp [ChatWindow.handleSend, hub, hu2, hu3, hu4]
    · simp [ChatWindow.handleSend, hub, hu2, hu3, hu4,
        List.countP_cons, List.countP_nil, Effect.isInsertMessage]
    · intro e he
      simp [ChatWindow.handleSend, hub, hu2, hu3, hu4] at he
      rcases he with h | h | h | h <;> subst h <;> rfl
  · refine ⟨fun b1 b2 b3 b4 => rfl, ?_, ?_, ?_, ?_, ?_⟩
    · simp [sendMessage, hab, ha2]
    · simp [sendMessage, hab, ha2]
    · simp [sendMessage, hab, ha2, ha3]
    · simp [sendMessage, hab, ha2, ha3,
        List.countP_cons, List.countP_nil, Effect.isInsertMessage]
    · intro e he
      simp [sendMessage, hab, ha2, ha3] at he
      rcases he with h | h | h | h <;> subst h <;> rfl

/-- The example user chat widget, connected to the example session with
`"hi"` typed. -/
def exChat : ChatState :=
  { messages := [], input := "hi", isConnected := true, chatEnded := false,
    sessionId := some "s1", channelOpen := true }

/-- The example dashboard with a reply typed. -/
def exAdminTyping : AdminState := { exAdmin with newMessage := "yo" }

/-- Witness for C8: concrete sends from both clients append locally and
issue exactly one insert with no error surfaced. -/
theorem send_optimistic_no_retry_witness :
    jsTrim "hi" ≠ "" ∧ exChat.sessionId.isNone = false ∧ exChat.chatEnded = false ∧
    jsTrim exAdminTyping.newMessage ≠ "" ∧ exAdminTyping.selected.isNone = false ∧
    (ChatWindow.handleSend exChat "hi" "m7" 9 true false).1.messages =
      exChat.messages ++
        [{ id := "m7", sender := .user, message := jsTrim "hi", created_at := 9 }] ∧
    ((ChatWindow.handleSend exChat "hi" "m7" 9 true false).2.countP
        Effect.isInsertMessage) = 1 ∧
    (sendMessage exAdminTyping "m8" 11 false true).1.newMessage = "" ∧
    ((sendMessage exAdminTyping "m8" 11 false true).2.countP Effect.isInsertMessage) = 1 :=
  ⟨by decide, rfl, rfl, by decide, rfl,
   (send_optimistic_no_retry exChat exAdminTyping "hi" "m7" "m8" 9 11 true false false true
      (by decide) rfl rfl rfl (by decide) rfl rfl).1.2.1,
   (send_optimistic_no_retry exChat exAdminTyping "hi" "m7" "m8" 9 11 true false false true
      (by decide) rfl rfl rfl (by decide) rfl rfl).1.2.2.2.2.1,
   (send_optimistic_no_retry exChat exAdminTyping "hi" "m7" "m8" 9 11 true false false true
      (by decide) rfl rfl rfl (by decide) rfl rfl).2.2.2.1,
   (send_optimistic_no_retry exChat exAdminTyping "hi" "m7" "m8" 9 11 true false false true
      (by decide) rfl rfl rfl (by decide) rfl rfl).2.2.2.2.2.1⟩

/-- The wizard-submit transition of `applyOp` agrees with the status
effect of `handleSubmit` on the session's stored row. -/
theorem applyOp_wizardSubmit_agrees (sess : SessionRow) (ms : List ChatMessageRow)
    (w : WizardState) (attemptId : String) (now : Nat)
    (hsid : w.sessionId = some sess.id) :
    statusOf (handleSubmit ⟨[sess], ms⟩ w attemptId now).1 sess.id =
      some (applyOp ⟨sess.code, sess.status⟩ (.wizardSubmit w.codeField)).status := by
  have hcode : lookupCode ⟨[sess], ms⟩ (some sess.id) = sess.code := by
    simp [lookupCode, List.find?]
  by_cases hc : computeIsCorrect sess.code w.codeField = true
  · have hc2 : computeIsCorrect (lookupCode ⟨[sess], ms⟩ (some sess.id)) w.codeField = true := by
      rw [hcode]; exact hc
    simp [handleSubmit, hsid, hc2, setSessionStatus, statusOf, applyOp, hc, List.find?]
  · have hcf : computeIsCorrect sess.code w.codeField = false := Bool.not_eq_true _ ▸ hc
    have hc2 : computeIsCorrect (lookupCode ⟨[sess], ms⟩ (some sess.id)) w.codeField = false := by
      rw [hcode]; exact hcf
    simp [handleSubmit, hsid, hc2, statusOf, applyOp, hcf, List.find?]

/-- C3 counterexample: from a fresh pending session, the exposed sequence
"operator sets code 123, operator rejects, user submits 123" first
reaches `rejected` and then transitions it to `verified` — so a rejected
session is not terminal under the exposed operations. -/
theorem status_leaves_rejected_counterexample :
    (runOps ⟨"", .pending⟩ [.setCode "123", .dashboardStatus .rejected]).status =
      .rejected ∧
    (runOps ⟨"", .pending⟩
      [.setCode "123", .dashboardStatus .rejected, .wizardSubmit "123"]).status =
      .verified := by
  constructor <;> decide

/-- C3 amended: any status change caused by one exposed operation is
either pending→verified / pending→rejected, or rejected→verified caused
by a wizard submission of the matching code; in particular `verified` is
terminal, but `rejected` is not. -/
theorem status_transitions_amended (s : SessionView) (op : Op)
    (h : (applyOp s op).status ≠ s.status) :
    (s.status = .pending ∧
      ((applyOp s op).status = .verified ∨ (applyOp s op).status = .rejected)) ∨
    (s.status = .rejected ∧ (applyOp s op).status = .verified ∧
      ∃ input, op = .wizardSubmit input) := by
  cases op with
  | setCode c =>
      exfalso
      apply h
      simp only [applyOp]
      split <;> rfl
  | dashboardStatus st =>
      simp only [applyOp] at h ⊢
      by_cases hcond : (s.status == .pending && (st == .verified || st == .rejected)) = true
      · rw [if_pos hcond] at h ⊢
        have hps := (Bool.and_eq_true _ _ ▸ hcond).1
        have hst := (Bool.and_eq_true _ _ ▸ hcond).2
        left
        refine ⟨beq_iff_eq.mp hps, ?_⟩
        rcases Bool.or_eq_true _ _ ▸ hst with h1 | h1
        · exact .inl (beq_iff_eq.mp h1)
        · exact .inr (beq_iff_eq.mp h1)
      · rw [if_neg hcond] at h
        exact absurd rfl h
  | wizardSubmit input =>
      simp only [applyOp] at h ⊢
      by_cases hcond : computeIsCorrect s.code input = true
      · rw [if_pos hcond] at h ⊢
        cases hs : s.status with
        | pending => exact .inl ⟨rfl, .inl rfl⟩
        | verified => exact absurd (hs ▸ rfl) h
        | rejected => exact .inr ⟨rfl, rfl, input, rfl⟩
      · rw [if_neg hcond] at h
        exact absurd rfl h

/-- Witness for C3's amended statement: rejecting the pending example
session is a pending→rejected transition. -/
theorem status_transitions_amended_witness :
    (applyOp ⟨"482913", .pending⟩ (.dashboardStatus .rejected)).status ≠
        (⟨"482913", .pending⟩ : SessionView).status ∧
    (((⟨"482913", .pending⟩ : SessionView).status = .pending ∧
       ((applyOp ⟨"482913", .pending⟩ (.dashboardStatus .rejected)).status = .verified ∨
        (applyOp ⟨"482913", .pending⟩ (.dashboardStatus .rejected)).status = .rejected)) ∨
     ((⟨"482913", .pending⟩ : SessionView).status = .rejected ∧
       (applyOp ⟨"482913", .pending⟩ (.dashboardStatus .rejected)).status = .verified ∧
       ∃ input, (Op.dashboardStatus .rejected) = .wizardSubmit input)) :=
  ⟨by decide,
   status_transitions_amended ⟨"482913", .pending⟩ (.dashboardStatus .rejected) (by decide)⟩

end BlockClash
